import Mathlib

/-!
Verification of the pge_etl extraction-and-transformation pipeline.

Shallow embedding of the pge_etl repository (src/models.py, src/transform.py,
src/extract.py, src/main.py) together with proofs of the specification's
claims about it.

Conventions:
* Python `None` is `Option.none`; fallible Python code (code that can raise)
  is embedded as `Except String _`, with the raised exception's message (or a
  description of its class) as the error value.
* A polars `DataFrame` is embedded as an ordered list of named columns, each
  a list of cells; a cell is null, an integer, or a string (the only dtypes
  the claims exercise).
* The timezone conversion performed by `polars.from_epoch(...).dt.
  convert_time_zone("America/Los_Angeles").dt.strftime(...)` is modelled by
  `epochToLAString`, implementing the proleptic-Gregorian civil calendar and
  the post-2007 United States DST rules that the America/Los_Angeles tzdata
  entry prescribes for the dates the claims mention.
-/

/-- Days-from-epoch to civil (year, month, day), proleptic Gregorian
(Hinnant's `civil_from_days`); models the calendar arithmetic of the
datetime library underlying polars. -/
def civilFromDays (z0 : Int) : Int × Int × Int :=
  let z := z0 + 719468
  let era : Int := (if 0 ≤ z then z else z - 146096) / 146097
  let doe : Int := z - era * 146097
  let yoe : Int := (doe - doe / 1460 + doe / 36524 - doe / 146096) / 365
  let y : Int := yoe + era * 400
  let doy : Int := doe - (365 * yoe + yoe / 4 - yoe / 100)
  let mp : Int := (5 * doy + 2) / 153
  let d : Int := doy - (153 * mp + 2) / 5 + 1
  let m : Int := mp + (if mp < 10 then 3 else -9)
  (y + (if m ≤ 2 then 1 else 0), m, d)

/-- Civil (year, month, day) to days-from-epoch (Hinnant's `days_from_civil`). -/
def daysFromCivil (y0 m d : Int) : Int :=
  let y := y0 - (if m ≤ 2 then 1 else 0)
  let era : Int := (if 0 ≤ y then y else y - 399) / 400
  let yoe : Int := y - era * 400
  let mp : Int := m + (if 2 < m then -3 else 9)
  let doy : Int := (153 * mp + 2) / 5 + d - 1
  let doe : Int := yoe * 365 + yoe / 4 - yoe / 100 + doy
  era * 146097 + doe - 719468

/-- Day number of the first Sunday on or after day `z` (day 0 = 1970-01-01,
a Thursday). -/
def firstSundayOnOrAfter (z : Int) : Int :=
  z + ((7 - (z + 4) % 7) % 7)

/-- Epoch second at which US DST starts in year `y`: second Sunday of March,
02:00 local standard time = 10:00 UTC for America/Los_Angeles. -/
def laDstStart (y : Int) : Int :=
  (firstSundayOnOrAfter (daysFromCivil y 3 1) + 7) * 86400 + 10 * 3600

/-- Epoch second at which US DST ends in year `y`: first Sunday of November,
02:00 local daylight time = 09:00 UTC for America/Los_Angeles. -/
def laDstEnd (y : Int) : Int :=
  firstSundayOnOrAfter (daysFromCivil y 11 1) * 86400 + 9 * 3600

/-- Whether America/Los_Angeles observes DST at UTC epoch second `t`
(post-2007 US rules). -/
def isLaDst (t : Int) : Bool :=
  let y := (civilFromDays (t.fdiv 86400)).1
  decide (laDstStart y ≤ t) && decide (t < laDstEnd y)

/-- UTC offset, in seconds, of America/Los_Angeles at UTC epoch second `t`. -/
def laOffset (t : Int) : Int :=
  if isLaDst t then -7 * 3600 else -8 * 3600

/-- Zero-pad a (nonnegative, < 100) integer to two digits. -/
def pad2 (n : Int) : String :=
  if n < 10 then "0" ++ toString n else toString n

/-- Models `polars.from_epoch(_, time_unit="s").dt.convert_time_zone(
"America/Los_Angeles").dt.strftime("%Y-%m-%d %H:%M:%S")` on one non-null
epoch-seconds value. -/
def epochToLAString (t : Int) : String :=
  let lt := t + laOffset t
  let days := lt.fdiv 86400
  let secs := lt - days * 86400
  let c := civilFromDays days
  toString c.1 ++ "-" ++ pad2 c.2.1 ++ "-" ++ pad2 c.2.2 ++ " " ++
    pad2 (secs / 3600) ++ ":" ++ pad2 (secs % 3600 / 60) ++ ":" ++ pad2 (secs % 60)

/-- A single value inside a polars column: null, a 64-bit integer, or a
string (the dtypes exercised by the pipeline's claims). -/
inductive Cell where
  | null : Cell
  | int (i : Int) : Cell
  | str (s : String) : Cell
deriving DecidableEq, Repr

/-- A polars DataFrame: an ordered list of named columns. -/
structure DataFrame where
  cols : List (String × List Cell)
deriving DecidableEq, Repr

/-- Embeds `DataFrame.height`: number of rows (length of the first column, 0 for a
DataFrame with no columns). -/
def DataFrame.height (df : DataFrame) : Nat :=
  match df.cols with
  | [] => 0
  | c :: _ => c.2.length

/-- Column lookup in the style of df[name] (first column with that name). -/
def DataFrame.column? (df : DataFrame) (name : String) : Option (List Cell) :=
  (df.cols.find? (fun c => c.1 == name)).map (·.2)

/-- Embeds `models.FieldMapping`. -/
structure FieldMapping where
  json_field : String
  db_field : String
  dtype : String
deriving DecidableEq, Repr

/-- Embeds `models.SourceConfig` (the fields the pipeline reads). -/
structure SourceConfig where
  name : String
  table_name : String
  prim_key : List String
  update_cols : List String
  schema : List FieldMapping
deriving DecidableEq, Repr

/-- Embeds `SourceConfig.db_columns`: the ordered list of target field names. -/
def SourceConfig.db_columns (sc : SourceConfig) : List String :=
  sc.schema.map (·.db_field)

/-- Embeds `SourceConfig.column_mapping` as an association list; Python builds a
dict `{f.json_field: f.db_field}`, so on duplicate json_fields the last
entry wins (see `mapLookup`). -/
def SourceConfig.column_mapping (sc : SourceConfig) : List (String × String) :=
  sc.schema.map (fun f => (f.json_field, f.db_field))

/-- Python-dict lookup over an association list built by comprehension:
the LAST binding of a key wins. -/
def mapLookup (m : List (String × String)) (k : String) : Option String :=
  match m with
  | [] => none
  | p :: rest =>
    match mapLookup rest k with
    | some v => some v
    | none => if p.1 == k then some p.2 else none

/-- Embeds `SourceConfig.validate` (models.py): one error message per primary-key
or update column absent from the schema's target fields, in loop order. -/
def SourceConfig.validate (sc : SourceConfig) : List String :=
  ((sc.prim_key.filter (fun col => !(sc.db_columns.contains col))).map
    (fun col => "[" ++ sc.name ++ "] primary key col " ++ col ++ " not in db schema"))
  ++ ((sc.update_cols.filter (fun col => !(sc.db_columns.contains col))).map
    (fun col => "[" ++ sc.name ++ "] update col " ++ col ++ " not in db schema"))

/-- One cell under `polars.from_epoch(_, time_unit="s")` followed by the
timezone conversion and strftime: null stays null, an integer (or a string
polars can cast to Int64) becomes the formatted local-time string, an
uncastable string raises a polars ComputeError. -/
def fromEpochLACell : Cell → Except String Cell
  | .null => .ok .null
  | .int i => .ok (.str (epochToLAString i))
  | .str s =>
    match s.toInt? with
    | some i => .ok (.str (epochToLAString i))
    | none => .error "ComputeError: conversion from str to i64 failed"

/-- Apply `fromEpochLACell` across a column, propagating the first error. -/
def convertCells : List Cell → Except String (List Cell)
  | [] => .ok []
  | c :: rest =>
    match fromEpochLACell c with
    | .error e => .error e
    | .ok c' =>
      match convertCells rest with
      | .error e => .error e
      | .ok cs => .ok (c' :: cs)

/-- Rewrite every column named `start` in place via `convertCells`. -/
def convertStartCols : List (String × List Cell) → Except String (List (String × List Cell))
  | [] => .ok []
  | (n, vs) :: rest =>
    match (if n == "start" then convertCells vs else .ok vs) with
    | .error e => .error e
    | .ok vs' =>
      match convertStartCols rest with
      | .error e => .error e
      | .ok cs => .ok ((n, vs') :: cs)

/-- Embeds `rawdata.with_columns(polars.from_epoch("start", ...)...)`: replaces the
`start` column by its converted form; a missing `start` column raises a
ColumnNotFoundError. -/
def withColumnsStart (df : DataFrame) : Except String DataFrame :=
  if df.cols.any (fun c => c.1 == "start") then
    match convertStartCols df.cols with
    | .error e => .error e
    | .ok cs => .ok ⟨cs⟩
  else .error "ColumnNotFoundError: start"

/-- Whether a list of names has a duplicate. -/
def hasDup : List String → Bool
  | [] => false
  | n :: rest => rest.contains n || hasDup rest

/-- Embeds `DataFrame.rename(mapping)`: every mapping key must be an existing
column; renamed columns must stay duplicate-free; column order and data are
preserved. -/
def rename (df : DataFrame) (m : List (String × String)) : Except String DataFrame :=
  if m.all (fun p => df.cols.any (fun c => c.1 == p.1)) then
    let cs := df.cols.map (fun c => ((mapLookup m c.1).getD c.1, c.2))
    if hasDup (cs.map (·.1)) then .error "DuplicateError"
    else .ok ⟨cs⟩
  else .error "ColumnNotFoundError: rename key not found"

/-- Look up each requested name in order (`DataFrame.select` body). -/
def selectCols (df : DataFrame) : List String → Except String (List (String × List Cell))
  | [] => .ok []
  | n :: rest =>
    match df.cols.find? (fun c => c.1 == n) with
    | none => .error ("ColumnNotFoundError: " ++ n)
    | some c =>
      match selectCols df rest with
      | .error e => .error e
      | .ok cs => .ok (c :: cs)

/-- Embeds `DataFrame.select(names)`: projects to exactly `names`, in order;
duplicate requested names or a missing column raise. -/
def select (df : DataFrame) (names : List String) : Except String DataFrame :=
  if hasDup names then .error "DuplicateError"
  else
    match selectCols df names with
    | .error e => .error e
    | .ok cs => .ok ⟨cs⟩

/-- Number of nulls in a column (`Series.null_count`). -/
def nullCount (vs : List Cell) : Nat :=
  (vs.filter (fun c => c == Cell.null)).length

/-- Loop body of `transform._validate_data`: for each primary-key column
(skipping falsy, i.e. empty, names — `if col and ...`), raise if the column
has a null; indexing a column absent from the frame raises a
ColumnNotFoundError. -/
def validatePk (df : DataFrame) (name : String) : List String → Except String Unit
  | [] => .ok ()
  | col :: rest =>
    if col == "" then validatePk df name rest
    else
      match df.column? col with
      | none => .error ("ColumnNotFoundError: " ++ col)
      | some vs =>
        if nullCount vs > 0 then
          .error ("[" ++ name ++ "] Primary key column contains null values")
        else validatePk df name rest

/-- Embeds `transform._validate_data`. -/
def validate_data (df : DataFrame) (sc : SourceConfig) : Except String Unit :=
  validatePk df sc.name sc.prim_key

/-- Embeds `transform.transform`: epoch→Los Angeles string conversion of the
`start` column, rename per the schema's mapping, projection to the target
columns, primary-key null validation; every raised error is wrapped into a
TransformError carrying the source name. -/
def transform (rawdata : DataFrame) (sc : SourceConfig) : Except String DataFrame :=
  let res : Except String DataFrame :=
    match withColumnsStart rawdata with
    | .error e => .error e
    | .ok r1 =>
      match rename r1 sc.column_mapping with
      | .error e => .error e
      | .ok r2 =>
        match select r2 sc.db_columns with
        | .error e => .error e
        | .ok r3 =>
          match validate_data r3 sc with
          | .error e => .error e
          | .ok _ => .ok r3
  match res with
  | .ok r => .ok r
  | .error e => .error ("[" ++ sc.name ++ "] Transformation Failed: " ++ e)

/-- An `xml.etree.ElementTree` element: tag (with its `atom:`/`espi:`
namespace prefix), attributes, text, children. -/
inductive Xml where
  | elem (tag : String) (attrs : List (String × String)) (text : Option String)
      (children : List Xml)

/-- Element tag. -/
def Xml.tag : Xml → String
  | .elem t _ _ _ => t

/-- Element attributes. -/
def Xml.attrs : Xml → List (String × String)
  | .elem _ a _ _ => a

/-- Element text (`None` when the element has no text). -/
def Xml.text : Xml → Option String
  | .elem _ _ tx _ => tx

/-- Element children. -/
def Xml.children : Xml → List Xml
  | .elem _ _ _ cs => cs

/-- Embeds `element.findall(tag, ns)` for a plain tag: matching direct children in
document order. -/
def Xml.findall (x : Xml) (tag : String) : List Xml :=
  x.children.filter (fun c => c.tag == tag)

/-- Embeds `element.find(tag, ns)` for a plain tag: first matching direct child. -/
def Xml.find (x : Xml) (tag : String) : Option Xml :=
  x.children.find? (fun c => c.tag == tag)

/-- Embeds `element.get(key)`: attribute lookup, `None` when absent. -/
def Xml.getAttr (x : Xml) (k : String) : Option String :=
  (x.attrs.find? (fun p => p.1 == k)).map (·.2)

/-- Embeds `element.find(".//tag")` over a list of subtrees: first descendant with
the tag, in document order (an element before its own subtree, a subtree
before its right siblings). -/
def findDescList (tag : String) : List Xml → Option Xml
  | [] => none
  | .elem t a tx cs :: xs =>
    if t == tag then some (.elem t a tx cs)
    else
      match findDescList tag cs with
      | some r => some r
      | none => findDescList tag xs

/-- Embeds `element.findtext("t1/t2", default=None, ...)`: the first grandchild
reached through a `t1` child then a `t2` child, in document order; a found
element with no text gives `""`, no element gives the default `None`. -/
def findtextPath2 (x : Xml) (t1 t2 : String) : Option String :=
  match ((x.findall t1).map (fun c => c.findall t2)).flatten.head? with
  | none => none
  | some e => some (e.text.getD "")

/-- Embeds `element.findtext("t", default=None, ...)` for a single-segment path. -/
def findtextPath1 (x : Xml) (t : String) : Option String :=
  match x.find t with
  | none => none
  | some e => some (e.text.getD "")

/-- Python `str.split(sep)` for a one-character separator, as
`extract_usage_point_id` applies it to the href: split on every occurrence,
keeping empty segments. -/
def pySplitAux (sep : Char) : List Char → List Char → List String
  | [], acc => [String.mk acc.reverse]
  | c :: cs, acc =>
    if c = sep then String.mk acc.reverse :: pySplitAux sep cs []
    else pySplitAux sep cs (c :: acc)

/-- Python `href.split("/")`. -/
def pySplit (sep : Char) (s : String) : List String :=
  pySplitAux sep s.data []

/-- Loop body of `extract.extract_usage_point_id`: scan the entry's
`atom:link` children; at the first link with `rel="up"`, split its `href`
on `/` and return the segment after the first `UsagePoint` segment
(a missing href raises AttributeError, a missing `UsagePoint` segment
raises ValueError, a trailing `UsagePoint` raises IndexError); with no
`rel="up"` link the Python function falls off the loop and returns None. -/
def usagePointFromLinks : List Xml → Except String (Option String)
  | [] => .ok none
  | l :: rest =>
    if l.getAttr "rel" == some "up" then
      match l.getAttr "href" with
      | none => .error "AttributeError: NoneType object has no attribute split"
      | some href =>
        let parts := pySplit '/' href
        match parts.findIdx? (fun s => s == "UsagePoint") with
        | none => .error "ValueError: UsagePoint is not in list"
        | some i =>
          match parts.get? (i + 1) with
          | none => .error "IndexError: list index out of range"
          | some seg => .ok (some seg)
    else usagePointFromLinks rest

/-- Embeds `extract.extract_usage_point_id`. -/
def extract_usage_point_id (child : Xml) : Except String (Option String) :=
  usagePointFromLinks (child.findall "atom:link")

/-- The flat row built by `extract.parse_xml` for one interval reading. -/
structure RawRow where
  usage_point : Option String
  reading_quality : Option String
  duration : Option String
  start : Option String
  value : Option String
  tou : Option String
  unit : String
deriving DecidableEq, Repr

/-- The row dictionary `parse_xml` appends for one `espi:IntervalReading`. -/
def mkReadingRow (upid : Option String) (reading : Xml) : RawRow :=
  { usage_point := upid
    reading_quality := findtextPath2 reading "espi:ReadingQuality" "espi:quality"
    duration := findtextPath2 reading "espi:timePeriod" "espi:duration"
    start := findtextPath2 reading "espi:timePeriod" "espi:start"
    value := findtextPath1 reading "espi:value"
    tou := findtextPath1 reading "espi:tou"
    unit := "kWh" }

/-- Loop of `extract.parse_xml` over the envelope's `atom:entry` children:
an entry with no `atom:content` child makes `content.find(...)` an
attribute access on None (AttributeError, failing the parse); an entry
whose content has no descendant `espi:IntervalBlock` is skipped; otherwise
one row per `espi:IntervalReading` child of the block. -/
def parseEntries : List Xml → Except String (List RawRow)
  | [] => .ok []
  | child :: rest =>
    match child.find "atom:content" with
    | none => .error "AttributeError: NoneType object has no attribute find"
    | some content =>
      match findDescList "espi:IntervalBlock" content.children with
      | none => parseEntries rest
      | some db =>
        match extract_usage_point_id child with
        | .error e => .error e
        | .ok upid =>
          match parseEntries rest with
          | .error e => .error e
          | .ok more => .ok ((db.findall "espi:IntervalReading").map (mkReadingRow upid) ++ more)

/-- Embeds `extract.parse_xml` on an already-decoded envelope. -/
def parse_xml (root : Xml) : Except String (List RawRow) :=
  parseEntries (root.findall "atom:entry")

/-- A pending-notification object in the S3 bucket: its key and its parsed
JSON payload, modelled as the fields of a JSON object, each holding an
array of URL strings (the shape the webhook contract prescribes). -/
structure S3Object where
  key : String
  payload : List (String × List String)

/-- Python-dict `.get` on the parsed payload. -/
def payloadGet (fields : List (String × List String)) (k : String) : Option (List String) :=
  (fields.find? (fun p => p.1 == k)).map (·.2)

/-- Python `key.endswith("/")`: whether the last character is the slash. -/
def endsWithSlash (s : String) : Bool :=
  match s.data.getLast? with
  | some c => c == '/'
  | none => false

/-- Embeds `extract.get_pending_webhooks` over a modelled listing of the bucket
prefix: skip directory-marker keys (ending in `/`), and for each remaining
object yield `payload.get("urls")` — which is None when the payload has no
`urls` field. -/
def get_pending_webhooks (objects : List S3Object) : List (Option (List String)) :=
  (objects.filter (fun o => !(endsWithSlash o.key))).map
    (fun o => payloadGet o.payload "urls")

/-- The nested `for urls in get_pending_webhooks(...): for url in urls:`
loop of `extract.extract`, with the per-URL fetch-and-parse effect
(`get_data` + `parse_xml`) supplied as a function: iterating over a None
unit raises TypeError, and any error from a fetch/parse propagates. -/
def webhookRowsLoop (fp : String → Except String (List RawRow)) :
    List (Option (List String)) → Except String (List RawRow)
  | [] => .ok []
  | none :: _ => .error "TypeError: NoneType object is not iterable"
  | some urls :: rest =>
    match urls.mapM fp with
    | .error e => .error e
    | .ok batches =>
      match webhookRowsLoop fp rest with
      | .error e => .error e
      | .ok more => .ok (batches.flatten ++ more)

/-- The discovery-and-accumulation slice of `extract.extract` (lines
54–62): run the webhook loop over the listed objects and wrap any raised
exception into an ExtractError; the surrounding schema/token/DataFrame
steps are abstracted away, as the claims only concern this loop. -/
def extract_rows (objects : List S3Object)
    (fp : String → Except String (List RawRow)) : Except String (List RawRow) :=
  match webhookRowsLoop fp (get_pending_webhooks objects) with
  | .ok rows => .ok rows
  | .error e => .error ("ExtractError: " ++ e)

/-- The three exception classes `main.main` catches around one source's
pipeline. -/
inductive StageError where
  | extractErr (msg : String)
  | transformErr (msg : String)
  | loadErr (msg : String)
deriving DecidableEq, Repr

/-- The `str(e)` message for a caught stage exception. -/
def StageError.message : StageError → String
  | .extractErr m => m
  | .transformErr m => m
  | .loadErr m => m

/-- The outcome of each pipeline stage for one configured source, supplied
to the orchestration as data: what `extract` returns (or raises), and what
`transform` / `bulk_load_data` return (or raise) as functions of their
input. -/
structure SourceBehavior where
  ext : Except StageError DataFrame
  tr : DataFrame → Except StageError DataFrame
  ld : DataFrame → Except StageError Unit

/-- The pipeline stages `main.main` can invoke for one source. -/
inductive Stage where
  | extractS
  | transformS
  | loadS
deriving DecidableEq, Repr

/-- Embeds `models.SourceMetrics` (the fields `main.main` writes; timestamps are
abstracted to the `end_recorded` flag the `finally` block guarantees). -/
structure SourceMetrics where
  source_name : String
  records_extracted : Nat
  records_uploaded : Nat
  status : String
  error_msg : Option String
  end_recorded : Bool
deriving DecidableEq, Repr

/-- The loop body of `main.main` for one source: try extract; record the
extracted count; skip on zero rows; else transform, load, mark success;
any ExtractError/TransformError/LoadError marks the source failed with the
message captured; the finally block always records the end time. Also
returns the list of stages that were invoked. -/
def processSource (name : String) (b : SourceBehavior) : SourceMetrics × List Stage :=
  match b.ext with
  | .error e =>
    (⟨name, 0, 0, "failed", some e.message, true⟩, [.extractS])
  | .ok rawdata =>
    if rawdata.height = 0 then
      (⟨name, rawdata.height, 0, "skipped", none, true⟩, [.extractS])
    else
      match b.tr rawdata with
      | .error e =>
        (⟨name, rawdata.height, 0, "failed", some e.message, true⟩, [.extractS, .transformS])
      | .ok processed =>
        match b.ld processed with
        | .error e =>
          (⟨name, rawdata.height, 0, "failed", some e.message, true⟩,
            [.extractS, .transformS, .loadS])
        | .ok _ =>
          (⟨name, rawdata.height, processed.height, "success", none, true⟩,
            [.extractS, .transformS, .loadS])

/-- The `for source_name, source_config in config.sources.items()` loop of
`main.main`: every configured source is processed in order, each by
`processSource` (exceptions being caught inside the loop body, no
iteration can abort the loop). -/
def mainLoop : List (String × SourceBehavior) → List (SourceMetrics × List Stage)
  | [] => []
  | (n, b) :: rest => processSource n b :: mainLoop rest

/-- The first stage error one source's pipeline hits under `main.main`'s
control flow (none when the source succeeds or is skipped). -/
def firstStageError (b : SourceBehavior) : Option StageError :=
  match b.ext with
  | .error e => some e
  | .ok rawdata =>
    if rawdata.height = 0 then none
    else
      match b.tr rawdata with
      | .error e => some e
      | .ok processed =>
        match b.ld processed with
        | .error e => some e
        | .ok _ => none

/-- C7. For every SourceConfig in which every entry of `prim_key` and
`update_cols` equals some FieldMapping target field, `validate` returns the
empty error list; and for any entry absent from the target fields, the
returned list is non-empty and contains the error message naming that
field. -/
theorem validate_empty_iff_keys_covered (sc : SourceConfig) :
    (sc.validate = [] ↔
      ((∀ col ∈ sc.prim_key, col ∈ sc.db_columns) ∧
       (∀ col ∈ sc.update_cols, col ∈ sc.db_columns))) ∧
    (∀ col ∈ sc.prim_key, col ∉ sc.db_columns →
      sc.validate ≠ [] ∧
      ("[" ++ sc.name ++ "] primary key col " ++ col ++ " not in db schema") ∈ sc.validate) ∧
    (∀ col ∈ sc.update_cols, col ∉ sc.db_columns →
      sc.validate ≠ [] ∧
      ("[" ++ sc.name ++ "] update col " ++ col ++ " not in db schema") ∈ sc.validate) := by
  refine ⟨?_, ?_, ?_⟩
  · unfold SourceConfig.validate
    rw [List.append_eq_nil, List.map_eq_nil_iff, List.map_eq_nil_iff,
      List.filter_eq_nil_iff, List.filter_eq_nil_iff]
    simp [List.elem_iff]
  · intro col hmem habs
    have hf : col ∈ sc.prim_key.filter (fun c => !(sc.db_columns.contains c)) := by
      rw [List.mem_filter]
      exact ⟨hmem, by simp [List.elem_iff, habs]⟩
    have : ("[" ++ sc.name ++ "] primary key col " ++ col ++ " not in db schema") ∈
        sc.validate := by
      unfold SourceConfig.validate
      exact List.mem_append_left _ (List.mem_map_of_mem _ hf)
    exact ⟨fun hnil => (by rw [hnil] at this; cases this), this⟩
  · intro col hmem habs
    have hf : col ∈ sc.update_cols.filter (fun c => !(sc.db_columns.contains c)) := by
      rw [List.mem_filter]
      exact ⟨hmem, by simp [List.elem_iff, habs]⟩
    have : ("[" ++ sc.name ++ "] update col " ++ col ++ " not in db schema") ∈
        sc.validate := by
      unfold SourceConfig.validate
      exact List.mem_append_right _ (List.mem_map_of_mem _ hf)
    exact ⟨fun hnil => (by rw [hnil] at this; cases this), this⟩

/-- C7 witness: a concrete config whose primary key `x` is not a target
field yields the naming error message; evaluated through the theorem. -/
theorem validate_empty_iff_keys_covered_witness :
    ("[a] primary key col x not in db schema") ∈
      (SourceConfig.validate ⟨"a", "t", ["x"], [], [⟨"j", "y", "string"⟩]⟩) :=
  ((validate_empty_iff_keys_covered ⟨"a", "t", ["x"], [], [⟨"j", "y", "string"⟩]⟩).2.1
    "x" (by decide) (by decide)).2

/-- A one-cell ingested table whose source column `start` holds the
epoch-seconds value 1700000000. -/
def epochFrame : DataFrame := ⟨[("start", [Cell.int 1700000000])]⟩

/-- A source config renaming the source field `start` to the target field
`start_time` (so the epoch conversion must run on the source name). -/
def epochConfig : SourceConfig :=
  ⟨"pge_usage", "usage", ["start_time"], [], [⟨"start", "start_time", "string"⟩]⟩

/-- C1 counterexample: epoch second 1700000000 is 2023-11-14 22:13:20 UTC,
whose America/Los_Angeles civil time is 14:13:20 (PST, UTC−8); transform
therefore produces "2023-11-14 14:13:20", not the claimed
"2023-11-14 22:13:20" (which is the UTC wall clock at that instant). -/
theorem transform_epoch_cell_ne_claimed :
    transform epochFrame epochConfig =
      .ok ⟨[("start_time", [Cell.str "2023-11-14 14:13:20"])]⟩ ∧
    ("2023-11-14 14:13:20" : String) ≠ "2023-11-14 22:13:20" := by
  exact ⟨rfl, by decide⟩

/-- C1 (amended): transform of a table whose source column `start` holds
the epoch-seconds value 1700000000 converts that cell — before renaming,
on the source field name — to the America/Los_Angeles civil-time string
"2023-11-14 14:13:20" under the renamed target column. -/
theorem transform_epoch_cell_la :
    transform epochFrame epochConfig =
      .ok ⟨[("start_time", [Cell.str "2023-11-14 14:13:20"])]⟩ := rfl

/-- The columns `selectCols` returns are named exactly as requested, in
order. -/
theorem selectCols_names (df : DataFrame) :
    ∀ (ns : List String) (cs : List (String × List Cell)),
      selectCols df ns = .ok cs → cs.map (·.1) = ns := by
  intro ns
  induction ns with
  | nil =>
    intro cs h
    unfold selectCols at h
    cases h
    rfl
  | cons n rest ih =>
    intro cs h
    unfold selectCols at h
    cases hf : df.cols.find? (fun c => c.1 == n) with
    | none => rw [hf] at h; cases h
    | some c =>
      rw [hf] at h
      cases hr : selectCols df rest with
      | error e => rw [hr] at h; cases h
      | ok cs' =>
        rw [hr] at h
        cases h
        have hc : c.1 = n := by
          have := List.find?_some hf
          simpa using this
        simp [hc, ih cs' hr]

/-- A successful `select` yields exactly the requested column names in
order. -/
theorem select_names (df : DataFrame) (ns : List String) (out : DataFrame)
    (h : select df ns = .ok out) : out.cols.map (·.1) = ns := by
  unfold select at h
  split at h
  · cases h
  · cases hs : selectCols df ns with
    | error e => rw [hs] at h; cases h
    | ok cs =>
      rw [hs] at h
      cases h
      exact selectCols_names df ns cs hs

/-- C8. For every successful call to transform, the returned table's
columns are exactly the source schema's target field names, in the order
the FieldMappings are declared (any unmapped source columns having been
dropped by the projection). -/
theorem transform_columns_are_db_columns (rawdata : DataFrame) (sc : SourceConfig)
    (out : DataFrame) (h : transform rawdata sc = .ok out) :
    out.cols.map (·.1) = sc.db_columns := by
  unfold transform at h
  cases h1 : withColumnsStart rawdata with
  | error e => rw [h1] at h; cases h
  | ok r1 =>
    rw [h1] at h
    dsimp only at h
    cases h2 : rename r1 sc.column_mapping with
    | error e => rw [h2] at h; cases h
    | ok r2 =>
      rw [h2] at h
      dsimp only at h
      cases h3 : select r2 sc.db_columns with
      | error e => rw [h3] at h; cases h
      | ok r3 =>
        rw [h3] at h
        dsimp only at h
        cases h4 : validate_data r3 sc with
        | error e => rw [h4] at h; cases h
        | ok u =>
          rw [h4] at h
          dsimp only at h
          cases h
          exact select_names r2 sc.db_columns out h3

/-- C8 witness: the concrete epoch fixture, whose successful transform
yields exactly the configured target column `start_time`. -/
theorem transform_columns_are_db_columns_witness :
    (⟨[("start_time", [Cell.str "2023-11-14 14:13:20"])]⟩ : DataFrame).cols.map (·.1) =
      epochConfig.db_columns :=
  transform_columns_are_db_columns epochFrame epochConfig
    ⟨[("start_time", [Cell.str "2023-11-14 14:13:20"])]⟩ rfl

/-- When every nonempty primary-key name is a column of the frame,
`validatePk` succeeds exactly when none of those columns contains a null. -/
theorem validatePk_ok_iff (df : DataFrame) (name : String) :
    ∀ (pks : List String),
      (∀ col ∈ pks, col ≠ "" → (df.column? col).isSome) →
      (validatePk df name pks = .ok () ↔
        ∀ col ∈ pks, col ≠ "" →
          ∀ vs, df.column? col = some vs → nullCount vs = 0) := by
  intro pks
  induction pks with
  | nil =>
    intro _
    simp [validatePk]
  | cons c rest ih =>
    intro hpk
    have hrest : ∀ col ∈ rest, col ≠ "" → (df.column? col).isSome :=
      fun col hc => hpk col (List.mem_cons_of_mem _ hc)
    unfold validatePk
    by_cases hc : c = ""
    · subst hc
      rw [if_pos (show ("" == "") = true from rfl)]
      rw [ih hrest]
      constructor
      · intro h col hmem hne
        rcases List.mem_cons.mp hmem with hh | ht
        · exact absurd hh.symm (Ne.symm hne)
        · exact h col ht hne
      · intro h col hmem hne
        exact h col (List.mem_cons_of_mem _ hmem) hne
    · have hcb : (c == "") = false := by simpa using hc
      rw [hcb]
      simp only [Bool.false_eq_true, if_false]
      have hsome := hpk c (List.mem_cons_self c rest) hc
      cases hvs : df.column? c with
      | none => rw [hvs] at hsome; simp at hsome
      | some vs =>
        dsimp only
        by_cases hn : nullCount vs > 0
        · rw [if_pos hn]
          constructor
          · intro h; cases h
          · intro h
            have := h c (List.mem_cons_self c rest) hc vs hvs
            omega
        · rw [if_neg hn]
          rw [ih hrest]
          constructor
          · intro h col hmem hne vs' hvs'
            rcases List.mem_cons.mp hmem with hh | ht
            · subst hh
              rw [hvs] at hvs'
              cases hvs'
              omega
            · exact h col ht hne vs' hvs'
          · intro h col hmem hne vs' hvs'
            exact h col (List.mem_cons_of_mem _ hmem) hne vs' hvs'

/-- A table whose single (primary-key) target column is named `""` and
holds a null. -/
def nullPkFrame : DataFrame := ⟨[("start", [Cell.null])]⟩

/-- The config mapping `start` to the empty-named target field, which is
also the primary key. -/
def nullPkConfig : SourceConfig := ⟨"s", "t", [""], [], [⟨"start", "", "string"⟩]⟩

/-- C3 counterexample: `_validate_data` guards each key with Python
truthiness (`if col and ...`), so a primary-key target column whose name is
the empty string is never checked: transform succeeds although that
primary-key target column contains a null after projection. -/
theorem transform_ok_despite_null_pk :
    transform nullPkFrame nullPkConfig = .ok ⟨[("", [Cell.null])]⟩ ∧
    "" ∈ nullPkConfig.prim_key ∧
    "" ∈ nullPkConfig.db_columns ∧
    DataFrame.column? ⟨[("", [Cell.null])]⟩ "" = some [Cell.null] ∧
    nullCount [Cell.null] > 0 :=
  ⟨rfl, by decide, by decide, rfl, by decide⟩

/-- C3 (amended). Provided the steps before validation succeed and every
nonempty-named primary-key target column survives the projection: transform
raises TransformError if any nonempty-named primary-key target column
contains at least one missing value after rename and projection, and
raises no exception when every such column is fully populated, even if
non-key columns contain missing values. -/
theorem transform_pk_null_validation (rawdata : DataFrame) (sc : SourceConfig)
    (r1 r2 r3 : DataFrame)
    (h1 : withColumnsStart rawdata = .ok r1)
    (h2 : rename r1 sc.column_mapping = .ok r2)
    (h3 : select r2 sc.db_columns = .ok r3)
    (hpk : ∀ col ∈ sc.prim_key, col ≠ "" → (r3.column? col).isSome) :
    ((∃ out, transform rawdata sc = .ok out) ↔
      ∀ col ∈ sc.prim_key, col ≠ "" →
        ∀ vs, r3.column? col = some vs → nullCount vs = 0) := by
  rw [← validatePk_ok_iff r3 sc.name sc.prim_key hpk]
  unfold transform
  rw [h1]
  dsimp only
  rw [h2]
  dsimp only
  rw [h3]
  dsimp only
  unfold validate_data
  cases hv : validatePk r3 sc.name sc.prim_key with
  | error e =>
    dsimp only
    constructor
    · rintro ⟨out, hout⟩; cases hout
    · intro h; cases h
  | ok u =>
    cases u
    dsimp only
    exact ⟨fun _ => rfl, fun _ => ⟨r3, rfl⟩⟩

/-- C3 witness: the concrete epoch fixture, where the primary-key column
`start_time` is fully populated and transform indeed succeeds. -/
theorem transform_pk_null_validation_witness :
    ((∃ out, transform epochFrame epochConfig = .ok out) ↔
      ∀ col ∈ epochConfig.prim_key, col ≠ "" →
        ∀ vs,
          DataFrame.column? ⟨[("start_time", [Cell.str "2023-11-14 14:13:20"])]⟩ col =
            some vs →
          nullCount vs = 0) :=
  transform_pk_null_validation epochFrame epochConfig
    ⟨[("start", [Cell.str "2023-11-14 14:13:20"])]⟩
    ⟨[("start_time", [Cell.str "2023-11-14 14:13:20"])]⟩
    ⟨[("start_time", [Cell.str "2023-11-14 14:13:20"])]⟩
    rfl rfl rfl (by decide)

/-- An `atom:link` with `rel="up"` whose href encodes usage point 42. -/
def upLink42 : Xml :=
  .elem "atom:link"
    [("rel", "up"),
     ("href", "https://api.pge.com/GreenButton/espi/1_1/resource/Subscription/11/UsagePoint/42/meterReading")]
    none []

/-- One `espi:IntervalReading` with duration 900, start 1700000000, value 5. -/
def reading1 : Xml :=
  .elem "espi:IntervalReading" [] none
    [.elem "espi:timePeriod" [] none
      [.elem "espi:duration" [] (some "900") [],
       .elem "espi:start" [] (some "1700000000") []],
     .elem "espi:value" [] (some "5") []]

/-- A second `espi:IntervalReading` with start 1700000900, value 7. -/
def reading2 : Xml :=
  .elem "espi:IntervalReading" [] none
    [.elem "espi:timePeriod" [] none
      [.elem "espi:duration" [] (some "900") [],
       .elem "espi:start" [] (some "1700000900") []],
     .elem "espi:value" [] (some "7") []]

/-- An entry whose content nests an `espi:IntervalBlock` holding the two
readings. -/
def blockEntry : Xml :=
  .elem "atom:entry" [] none
    [upLink42,
     .elem "atom:content" [] none
      [.elem "espi:IntervalBlock" [] none [reading1, reading2]]]

/-- An envelope with exactly the one interval-block entry. -/
def envTwoReadings : Xml := .elem "atom:feed" [] none [blockEntry]

/-- An entry whose content holds no interval-block at all. -/
def noBlockEntry : Xml :=
  .elem "atom:entry" [] none
    [upLink42,
     .elem "atom:content" [] none
      [.elem "espi:ReadingType" [] none []]]

/-- An envelope with only the block-free entry. -/
def envNoBlock : Xml := .elem "atom:feed" [] none [noBlockEntry]

/-- The row parse_xml builds for `reading1` under usage point 42. -/
def row1 : RawRow :=
  ⟨some "42", none, some "900", some "1700000000", some "5", none, "kWh"⟩

/-- The row parse_xml builds for `reading2` under usage point 42. -/
def row2 : RawRow :=
  ⟨some "42", none, some "900", some "1700000900", some "7", none, "kWh"⟩

/-- C4. Parsing an envelope with exactly one entry whose content holds an
interval-block with two interval-readings yields exactly two rows, both
carrying the same usage-point id; and an entry whose content holds no
interval-block contributes zero rows and does not raise. -/
theorem parse_xml_two_readings :
    parse_xml envTwoReadings = .ok [row1, row2] ∧
    row1.usage_point = row2.usage_point ∧
    parse_xml envNoBlock = .ok [] := by
  refine ⟨?_, rfl, ?_⟩ <;>
    simp [parse_xml, parseEntries, findDescList, Xml.findall, Xml.find, Xml.children,
      Xml.tag, Xml.text, Xml.getAttr, Xml.attrs, envTwoReadings, blockEntry, upLink42,
      reading1, reading2, envNoBlock, noBlockEntry, mkReadingRow, findtextPath2,
      findtextPath1, extract_usage_point_id, usagePointFromLinks, pySplit, pySplitAux,
      row1, row2]

/-- An entry carrying only links without `rel="up"`. -/
def noUpEntry : Xml :=
  .elem "atom:entry" [] none
    [.elem "atom:link" [("rel", "self"), ("href", "https://api.pge.com/x/y")] none []]

/-- C5. For an entry carrying a link with `rel="up"` and an href passing
through `/UsagePoint/42/`, the derived usage-point id is the segment `"42"`
immediately after the `UsagePoint` segment; and for any entry none of whose
links has `rel="up"`, the usage point is the absent value (None) rather
than a failure. -/
theorem usage_point_id_derivation :
    extract_usage_point_id blockEntry = .ok (some "42") ∧
    ∀ e : Xml,
      (∀ l ∈ e.findall "atom:link", l.getAttr "rel" ≠ some "up") →
      extract_usage_point_id e = .ok none := by
  refine ⟨rfl, ?_⟩
  intro e he
  unfold extract_usage_point_id
  generalize hls : e.findall "atom:link" = ls at he
  clear hls
  induction ls with
  | nil => rfl
  | cons l rest ih =>
    have hne : (l.getAttr "rel" == some "up") = false := by
      have := he l (List.mem_cons_self l rest)
      simpa using this
    unfold usagePointFromLinks
    rw [hne]
    simp only [Bool.false_eq_true, if_false]
    exact ih (fun l' hl' => he l' (List.mem_cons_of_mem _ hl'))

/-- C5 witness: an entry with only a `rel="self"` link derives the absent
usage point. -/
theorem usage_point_id_derivation_witness :
    extract_usage_point_id noUpEntry = .ok none :=
  usage_point_id_derivation.2 noUpEntry (by decide)

/-- An entry with no `atom:content` child at all. -/
def noContentEntry : Xml := .elem "atom:entry" [] none [upLink42]

/-- An envelope holding only the content-free entry. -/
def envNoContent : Xml := .elem "atom:feed" [] none [noContentEntry]

/-- C9. An entry with no content element fails the whole parse: `content`
is None and `content.find(...)` raises AttributeError — in contrast to an
entry whose content merely lacks an interval-block, which contributes zero
rows without error. -/
theorem parse_xml_no_content_raises :
    parse_xml envNoContent = .error "AttributeError: NoneType object has no attribute find" ∧
    parse_xml envNoBlock = .ok [] := by
  refine ⟨rfl, ?_⟩
  simp [parse_xml, parseEntries, findDescList, Xml.findall, Xml.find, Xml.children,
    Xml.tag, Xml.getAttr, Xml.attrs, envNoBlock, noBlockEntry, upLink42]

/-- Lemma: `mainLoop` visits every configured source: one metrics entry per
source. -/
theorem mainLoop_length (sources : List (String × SourceBehavior)) :
    (mainLoop sources).length = sources.length := by
  induction sources with
  | nil => rfl
  | cons p rest ih =>
    cases p
    simp [mainLoop, ih]

/-- The i-th metrics entry of `mainLoop` is exactly `processSource` of the
i-th configured source: no other source influences it. -/
theorem mainLoop_get? (sources : List (String × SourceBehavior)) (i : Nat)
    (n : String) (b : SourceBehavior) (h : sources.get? i = some (n, b)) :
    (mainLoop sources).get? i = some (processSource n b) := by
  induction sources generalizing i with
  | nil => cases h
  | cons p rest ih =>
    cases p with
    | mk n' b' =>
      cases i with
      | zero =>
        cases h
        rfl
      | succ j =>
        exact ih j h

/-- When one source's pipeline hits a stage error, `processSource` marks it
failed with the message captured. -/
theorem processSource_failed (name : String) (b : SourceBehavior)
    (e : StageError) (he : firstStageError b = some e) :
    (processSource name b).1.status = "failed" ∧
    (processSource name b).1.error_msg = some e.message := by
  unfold firstStageError at he
  unfold processSource
  cases hext : b.ext with
  | error e' =>
    rw [hext] at he
    cases he
    exact ⟨rfl, rfl⟩
  | ok rawdata =>
    rw [hext] at he
    dsimp only at he ⊢
    by_cases h0 : rawdata.height = 0
    · rw [if_pos h0] at he
      cases he
    · rw [if_neg h0] at he
      rw [if_neg h0]
      cases htr : b.tr rawdata with
      | error e' =>
        rw [htr] at he
        cases he
        exact ⟨rfl, rfl⟩
      | ok processed =>
        rw [htr] at he
        dsimp only at he ⊢
        cases hld : b.ld processed with
        | error e' =>
          rw [hld] at he
          dsimp only at he
          cases he
          exact ⟨rfl, rfl⟩
        | ok u =>
          rw [hld] at he
          dsimp only at he
          cases he

/-- C2. For every source processed by the run orchestration: the run
produces one metrics entry per configured source, each source's entry is a
function of that source's own stage outcomes only (so no failure aborts the
run or changes another source's outcome), and if extraction, transform or
load raises one of the three caught errors, that source's status is
"failed" with the error message captured. -/
theorem run_isolates_source_failures (sources : List (String × SourceBehavior))
    (i : Nat) (n : String) (b : SourceBehavior)
    (h : sources.get? i = some (n, b)) :
    (mainLoop sources).length = sources.length ∧
    (mainLoop sources).get? i = some (processSource n b) ∧
    (∀ e, firstStageError b = some e →
      (processSource n b).1.status = "failed" ∧
      (processSource n b).1.error_msg = some e.message) :=
  ⟨mainLoop_length sources, mainLoop_get? sources i n b h,
    fun e he => processSource_failed n b e he⟩

/-- A behavior whose extraction raises. -/
def failingBehavior : SourceBehavior :=
  ⟨.error (.extractErr "boom"), fun df => .ok df, fun _ => .ok ()⟩

/-- A behavior whose extraction returns a one-row table and whose later
stages succeed. -/
def successBehavior : SourceBehavior :=
  ⟨.ok ⟨[("v", [Cell.int 1])]⟩, fun df => .ok df, fun _ => .ok ()⟩

/-- C2 witness: a two-source run where the first source's extraction
raises; its entry is failed with the message captured, and the run still
yields an entry per source. -/
theorem run_isolates_source_failures_witness :
    (mainLoop [("s1", failingBehavior), ("s2", successBehavior)]).length =
      [("s1", failingBehavior), ("s2", successBehavior)].length ∧
    (mainLoop [("s1", failingBehavior), ("s2", successBehavior)]).get? 0 =
      some (processSource "s1" failingBehavior) ∧
    (processSource "s1" failingBehavior).1.status = "failed" ∧
    (processSource "s1" failingBehavior).1.error_msg = some "boom" := by
  have h := run_isolates_source_failures
    [("s1", failingBehavior), ("s2", successBehavior)] 0 "s1" failingBehavior rfl
  have hf := h.2.2 (.extractErr "boom") rfl
  exact ⟨h.1, h.2.1, hf.1, hf.2⟩

/-- C6. For every source whose extraction returns zero rows, the run
orchestration records status "skipped" with records_extracted = 0, and
neither the Transform Stage nor the loader is invoked for that source. -/
theorem zero_rows_skipped (sources : List (String × SourceBehavior))
    (i : Nat) (n : String) (b : SourceBehavior) (rawdata : DataFrame)
    (h : sources.get? i = some (n, b))
    (hext : b.ext = .ok rawdata) (h0 : rawdata.height = 0) :
    ∃ m tr, (mainLoop sources).get? i = some (m, tr) ∧
      m.status = "skipped" ∧ m.records_extracted = 0 ∧
      Stage.transformS ∉ tr ∧ Stage.loadS ∉ tr := by
  have hp : processSource n b = (⟨n, rawdata.height, 0, "skipped", none, true⟩, [.extractS]) := by
    unfold processSource
    rw [hext]
    dsimp only
    rw [if_pos h0]
  refine ⟨⟨n, rawdata.height, 0, "skipped", none, true⟩, [.extractS], ?_, rfl, h0, ?_, ?_⟩
  · rw [mainLoop_get? sources i n b h, hp]
  · decide
  · decide

/-- A behavior whose extraction returns an empty table. -/
def emptyBehavior : SourceBehavior :=
  ⟨.ok ⟨[]⟩, fun df => .ok df, fun _ => .ok ()⟩

/-- C6 witness: a single source with zero extracted rows is skipped with no
transform or load stage invoked. -/
theorem zero_rows_skipped_witness :
    ∃ m tr, (mainLoop [("s1", emptyBehavior)]).get? 0 = some (m, tr) ∧
      m.status = "skipped" ∧ m.records_extracted = 0 ∧
      Stage.transformS ∉ tr ∧ Stage.loadS ∉ tr :=
  zero_rows_skipped [("s1", emptyBehavior)] 0 "s1" emptyBehavior ⟨[]⟩ rfl rfl rfl

/-- If any discovery unit is None, the per-URL iteration in the extract
loop raises, whatever the individual fetches do. -/
theorem webhookRowsLoop_none_isError (fp : String → Except String (List RawRow)) :
    ∀ units : List (Option (List String)), none ∈ units →
      ∃ e, webhookRowsLoop fp units = .error e := by
  intro units h
  induction units with
  | nil => cases h
  | cons u rest ih =>
    cases u with
    | none => exact ⟨"TypeError: NoneType object is not iterable", rfl⟩
    | some urls =>
      have h' : none ∈ rest := by
        rcases List.mem_cons.mp h with hh | ht
        · cases hh
        · exact ht
      obtain ⟨e, he⟩ := ih h'
      unfold webhookRowsLoop
      cases hm : urls.mapM fp with
      | error e' => exact ⟨e', rfl⟩
      | ok batches =>
        rw [he]
        exact ⟨e, rfl⟩

/-- C10. For every notification object (under a non-directory key) whose
JSON payload lacks a `urls` field, `get_pending_webhooks` yields the absent
value (None) as that discovery unit instead of skipping it or raising at
discovery; and the subsequent per-URL iteration in extract then fails the
whole source's extraction with an ExtractError. -/
theorem missing_urls_field_fails_extraction (objects : List S3Object) (o : S3Object)
    (ho : o ∈ objects) (hk : endsWithSlash o.key = false)
    (hu : payloadGet o.payload "urls" = none)
    (fp : String → Except String (List RawRow)) :
    none ∈ get_pending_webhooks objects ∧
    ∃ e, extract_rows objects fp = .error ("ExtractError: " ++ e) := by
  have hmem : none ∈ get_pending_webhooks objects := by
    unfold get_pending_webhooks
    rw [← hu]
    refine List.mem_map_of_mem _ ?_
    rw [List.mem_filter]
    exact ⟨ho, by simp [hk]⟩
  refine ⟨hmem, ?_⟩
  obtain ⟨e, he⟩ := webhookRowsLoop_none_isError fp (get_pending_webhooks objects) hmem
  refine ⟨e, ?_⟩
  unfold extract_rows
  rw [he]

/-- An S3 notification object whose payload has no `urls` field. -/
def badNotification : S3Object := ⟨"webhooks/20231114.json", [("other", ["u1"])]⟩

/-- C10 witness: a listing holding only the `urls`-less notification makes
discovery yield None and extraction fail with an ExtractError. -/
theorem missing_urls_field_fails_extraction_witness :
    none ∈ get_pending_webhooks [badNotification] ∧
    ∃ e, extract_rows [badNotification] (fun _ => .ok []) =
      .error ("ExtractError: " ++ e) :=
  missing_urls_field_fails_extraction [badNotification] badNotification
    (List.mem_singleton.mpr rfl) rfl rfl (fun _ => .ok [])
